import Mathlib

/-!
Verification development for the `truesocks_rs` client library
(`src/lib.rs`, `src/models.rs`): a typed binding for a proxy-rental HTTP
API.  The code is shallowly embedded: JSON values become an inductive
`Json` type, serde deserializers become functions `Json → Except String α`
mirroring the serde semantics the source relies on (untagged enums try
variants in order, `Option` struct fields default to absent, required
fields fail when missing), and the network side of `execute_command` is
abstracted into an explicit `NetOutcome` describing what the transport
produced, with the rest of the function translated line by line.
-/

namespace TrueSocks

/-- JSON values as produced by `serde_json::Value`.  Numbers are modelled
as integers; no decoded field of this program carries a fractional wire
value that any claim depends on. -/
inductive Json where
  | null : Json
  | bool (b : Bool) : Json
  | num (n : Int) : Json
  | str (s : String) : Json
  | arr (elems : List Json) : Json
  | obj (entries : List (String × Json)) : Json
deriving Repr

/-- First-match lookup in a JSON object's entry list (serde_json `Map`
holds each key once, so first-match agrees with map lookup). -/
def jlookup (entries : List (String × Json)) (k : String) : Option Json :=
  match entries with
  | [] => none
  | (k', v) :: rest => if k' = k then some v else jlookup rest k

/-- Indexing as in `value["status"]` on `serde_json::Value`: objects are
looked up (missing key gives `Null`), every other shape gives `Null`. -/
def jindex (v : Json) (k : String) : Json :=
  match v with
  | Json.obj entries => (jlookup entries k).getD Json.null
  | _ => Json.null

/-- serde_json: deserializing a `String` accepts only a JSON string. -/
def deserializeString (v : Json) : Except String String :=
  match v with
  | Json.str s => Except.ok s
  | _ => Except.error "invalid type: expected a string"

/-- serde_json: deserializing a `bool` accepts only a JSON boolean. -/
def deserializeBool (v : Json) : Except String Bool :=
  match v with
  | Json.bool b => Except.ok b
  | _ => Except.error "invalid type: expected a boolean"

/-- serde_json: deserializing a `u64` accepts an integer in `[0, 2^64)`. -/
def deserializeU64 (v : Json) : Except String Nat :=
  match v with
  | Json.num n =>
      if 0 ≤ n ∧ n < 18446744073709551616 then Except.ok n.toNat
      else Except.error "invalid value: integer out of range for u64"
  | _ => Except.error "invalid type: expected an unsigned integer"

/-- serde_json: deserializing a `u16` accepts an integer in `[0, 2^16)`. -/
def deserializeU16 (v : Json) : Except String Nat :=
  match v with
  | Json.num n =>
      if 0 ≤ n ∧ n < 65536 then Except.ok n.toNat
      else Except.error "invalid value: integer out of range for u16"
  | _ => Except.error "invalid type: expected an unsigned integer"

/-- serde_json: deserializing a `u32` accepts an integer in `[0, 2^32)`. -/
def deserializeU32 (v : Json) : Except String Nat :=
  match v with
  | Json.num n =>
      if 0 ≤ n ∧ n < 4294967296 then Except.ok n.toNat
      else Except.error "invalid value: integer out of range for u32"
  | _ => Except.error "invalid type: expected an unsigned integer"

/-- Deserialize each element of a JSON array, failing on any non-array or
on the first failing element (serde `Vec<T>`). -/
def deserializeList (dec : Json → Except String α) : Json → Except String (List α)
  | Json.arr elems =>
      let rec go : List Json → Except String (List α)
        | [] => Except.ok []
        | v :: rest =>
            match dec v with
            | Except.ok a =>
                match go rest with
                | Except.ok as => Except.ok (a :: as)
                | Except.error e => Except.error e
            | Except.error e => Except.error e
      go elems
  | _ => Except.error "invalid type: expected a sequence"

/-- Fetch a required struct field and decode it; a missing field is a
deserialization error (serde derive on a non-`Option` field). -/
def requiredField (entries : List (String × Json)) (k : String)
    (dec : Json → Except String α) : Except String α :=
  match jlookup entries k with
  | some v => dec v
  | none => Except.error "missing field"

/-! ### models.rs: field normalizers -/

/-- Decoder `empty_string_as_none` (models.rs:35-45): deserialize a `String`;
`""` becomes absent, anything else is kept. -/
def empty_string_as_none (v : Json) : Except String (Option String) :=
  match deserializeString v with
  | Except.ok s => if s.isEmpty then Except.ok none else Except.ok (some s)
  | Except.error e => Except.error e

/-- Decoder `zipcode_field` (models.rs:65-76): deserialize a `String`; the
literal `"-"` becomes absent, anything else is kept. -/
def zipcode_field (v : Json) : Except String (Option String) :=
  match deserializeString v with
  | Except.ok s => if s = "-" then Except.ok none else Except.ok (some s)
  | Except.error e => Except.error e

/-- Decoder `ip_field` (models.rs:78-92): the raw value is inspected directly;
`false` is absent, a string is present, everything else errors. -/
def ip_field (v : Json) : Except String (Option String) :=
  match v with
  | Json.bool false => Except.ok none
  | Json.str ip => Except.ok (some ip)
  | _ => Except.error "IP field expected to be a boolean or string"

/-- Enum `BlacklistType` (models.rs:113-121). -/
inductive BlacklistType where
  | OpenProxy : BlacklistType
  | WebAbuse : BlacklistType
  | EmailSpam : BlacklistType
deriving Repr, DecidableEq

/-- serde external deserialization of the renamed unit variants of
`BlacklistType` from a JSON string. -/
def deserializeBlacklistType (v : Json) : Except String BlacklistType :=
  match v with
  | Json.str "Open Proxy" => Except.ok BlacklistType.OpenProxy
  | Json.str "Web Abuse" => Except.ok BlacklistType.WebAbuse
  | Json.str "Email Spam" => Except.ok BlacklistType.EmailSpam
  | _ => Except.error "unknown variant of BlacklistType"

/-- Record `BlacklistInfo` (models.rs:123-136). -/
structure BlacklistInfo where
  id : String
  name : String
  blacklist_type : BlacklistType
  desc : String
  link : Option String
deriving Repr, DecidableEq

/-- serde derive for `BlacklistInfo`: required renamed fields; `Link`
goes through `empty_string_as_none`. -/
def deserializeBlacklistInfo (v : Json) : Except String BlacklistInfo :=
  match v with
  | Json.obj entries => do
      let id ← requiredField entries "ID" deserializeString
      let name ← requiredField entries "Name" deserializeString
      let btype ← requiredField entries "Type" deserializeBlacklistType
      let desc ← requiredField entries "Desc" deserializeString
      let link ← requiredField entries "Link" empty_string_as_none
      Except.ok ⟨id, name, btype, desc, link⟩
  | _ => Except.error "invalid type: expected struct BlacklistInfo"

/-- Decoder `blacklist_field` (models.rs:46-63): serde untagged enum
`{False(bool), Blacklist(Vec<BlacklistInfo>)}` — variants tried in
order, so ANY boolean (not only `false`) takes the `False` arm and maps
to absent. -/
def blacklist_field (v : Json) : Except String (Option (List BlacklistInfo)) :=
  match deserializeBool v with
  | Except.ok _ => Except.ok none
  | Except.error _ =>
      match deserializeList deserializeBlacklistInfo v with
      | Except.ok xs => Except.ok (some xs)
      | Except.error _ =>
          Except.error "data did not match any variant of untagged enum BlacklistField"

/-- Record `ConnectInfo` (models.rs:211-219). -/
structure ConnectInfo where
  connect_ip : String
  connect_port : Nat
  connect_session_id : String
deriving Repr, DecidableEq

/-- serde derive for `ConnectInfo`: required renamed fields, port is a
`u16`. -/
def deserializeConnectInfo (v : Json) : Except String ConnectInfo :=
  match v with
  | Json.obj entries => do
      let ip ← requiredField entries "ConnectIP" deserializeString
      let port ← requiredField entries "ConnectPort" deserializeU16
      let sid ← requiredField entries "ConnectSessionID" deserializeString
      Except.ok ⟨ip, port, sid⟩
  | _ => Except.error "invalid type: expected struct ConnectInfo"

/-- Decoder `connect_info_field` (models.rs:94-111): serde untagged enum
`{False(bool), ConnectInfo(ConnectInfo)}` — variants tried in order, so
ANY boolean takes the `False` arm and maps to absent. -/
def connect_info_field (v : Json) : Except String (Option ConnectInfo) :=
  match deserializeBool v with
  | Except.ok _ => Except.ok none
  | Except.error _ =>
      match deserializeConnectInfo v with
      | Except.ok ci => Except.ok (some ci)
      | Except.error _ =>
          Except.error "data did not match any variant of untagged enum ConnectInfoField"

/-! ### models.rs: envelope and errors -/

/-- Record `Status` (models.rs:23-27): the status envelope, `code: u64`. -/
structure Status where
  code : Nat
  message : String
deriving Repr, DecidableEq

/-- Error type `ApiError` (models.rs:5-9): `RequestError` carries a declared API
failure's envelope, `StatusError` carries an HTTP-level status code. -/
inductive ApiError where
  | RequestError (status : Status) : ApiError
  | StatusError (code : Nat) : ApiError
deriving Repr, DecidableEq

/-- serde derive for `Status`: object with required `code` (u64) and
`message` (String) fields. -/
def deserializeStatus (v : Json) : Except String Status :=
  match v with
  | Json.obj entries => do
      let code ← requiredField entries "code" deserializeU64
      let message ← requiredField entries "message" deserializeString
      Except.ok ⟨code, message⟩
  | _ => Except.error "invalid type: expected struct Status"

/-- Record `ApiResponse<T>` (models.rs:29-33). -/
structure ApiResponse (T : Type) where
  status : Status
  result : T
deriving Repr, DecidableEq

/-- serde derive for `ApiResponse<T>`: object with required `status`
field and a `result` field decoded by the command's result decoder.
The decoder receives `none` when the field is missing, so `Option`-typed
results can default to absent the way serde derive does. -/
def deserializeApiResponse (decodeT : Option Json → Except String T) (v : Json) :
    Except String (ApiResponse T) :=
  match v with
  | Json.obj entries =>
      match requiredField entries "status" deserializeStatus with
      | Except.ok status =>
          match decodeT (jlookup entries "result") with
          | Except.ok result => Except.ok ⟨status, result⟩
          | Except.error e => Except.error e
      | Except.error e => Except.error e
  | _ => Except.error "invalid type: expected struct ApiResponse"

/-- Result decoder for a required `bool` payload (used by `Ping`). -/
def boolResult (v? : Option Json) : Except String Bool :=
  match v? with
  | some v => deserializeBool v
  | none => Except.error "missing field result"

/-- Result decoder for an `Option<bool>` payload (used by
`HistoryEntryChangeNote`): a missing or null field is absent, a boolean
is present, anything else fails. -/
def optBoolResult (v? : Option Json) : Except String (Option Bool) :=
  match v? with
  | some Json.null => Except.ok none
  | some (Json.bool b) => Except.ok (some b)
  | some _ => Except.error "invalid type: expected a boolean or null"
  | none => Except.ok none

/-! ### lib.rs: request building -/

/-- Insert into a JSON object's entry list, replacing the value at an
existing key in place and appending otherwise (serde_json `Map::insert`
lookup semantics). -/
def objInsert (entries : List (String × Json)) (k : String) (v : Json) :
    List (String × Json) :=
  match entries with
  | [] => [(k, v)]
  | (k', v') :: rest =>
      if k' = k then (k', v) :: rest else (k', v') :: objInsert rest k v

/-- Function `merge_values` (lib.rs:16-26): iterate the second object's entries
and insert each into the first; `none` models the source's panic when
either argument is not an object. -/
def merge_values (params1 params2 : Json) : Option Json :=
  match params2 with
  | Json.obj entries2 =>
      match params1 with
      | Json.obj entries1 =>
          some (Json.obj (entries2.foldl (fun acc kv => objInsert acc kv.1 kv.2) entries1))
      | _ => none
  | _ => none

/-- The base parameter object `{"key": api_key, "cmd": command}` built by
`execute_command` (lib.rs:40-43); serde_json's map is key-ordered, and
"cmd" < "key". -/
def baseParams (command api_key : String) : Json :=
  Json.obj [("cmd", Json.str command), ("key", Json.str api_key)]

/-- Extract the query-parameter pairs from the merged object
(lib.rs:52-56); `none` models the source's panic when a parameter value
is not a string. -/
def stringPairs (v : Json) : Option (List (String × String)) :=
  match v with
  | Json.obj entries =>
      let rec go : List (String × Json) → Option (List (String × String))
        | [] => some []
        | (k, Json.str s) :: rest =>
            match go rest with
            | some ps => some ((k, s) :: ps)
            | none => none
        | _ :: _ => none
      go entries
  | _ => none

/-- Request construction of `execute_command` (lib.rs:40-59): merge the
base `key`/`cmd` object with the additional parameters and stringify. -/
def execute_command_params (command api_key : String) (additional_params : Option Json) :
    Option (List (String × String)) :=
  match merge_values (baseParams command api_key) (additional_params.getD (Json.obj [])) with
  | some merged => stringPairs merged
  | none => none

/-! ### lib.rs: response handling -/

/-- What the transport produced for one dispatched request, after the
retry middleware has run: the send failed outright, or an HTTP response
arrived with a status code and a body that either parsed as JSON or did
not. -/
inductive NetOutcome where
  | sendFailure : NetOutcome
  | response (httpStatus : Nat) (body : Option Json) : NetOutcome
deriving Repr

/-- Predicate `reqwest::StatusCode::is_success`: 2xx. -/
def httpSuccess (code : Nat) : Bool :=
  200 ≤ code && code ≤ 299

/-- Status-envelope check of `execute_command` (lib.rs:65-69): when the
`status` sub-field parses as a `Status` whose code is neither 0 nor 209
the call fails with a declared API failure carrying that envelope; in
every other case (code 0, code 209, or an unparseable envelope) the
pipeline continues.  The check is identical for every command — the
source consults the command name only while building the request. -/
def envelope_gate (value : Json) : Except ApiError Unit :=
  match deserializeStatus (jindex value "status") with
  | Except.ok status =>
      if status.code ≠ 0 ∧ status.code ≠ 209 then
        Except.error (ApiError.RequestError status)
      else Except.ok ()
  | Except.error _ => Except.ok ()

/-- Remainder of the response handling of `execute_command`
(lib.rs:60-71): send and body-parse failures map to `StatusError 418`, a
non-2xx HTTP status maps to `StatusError` of that status, then the
envelope gate runs, then the body is decoded as `ApiResponse<T>` with a
failure mapping to `StatusError 418`. -/
def execute_command (command : String) (decodeT : Option Json → Except String T)
    (net : NetOutcome) : Except ApiError (ApiResponse T) :=
  match net with
  | NetOutcome.sendFailure => Except.error (ApiError.StatusError 418)
  | NetOutcome.response httpStatus body =>
      if httpSuccess httpStatus then
        match body with
        | none => Except.error (ApiError.StatusError 418)
        | some value =>
            match envelope_gate value with
            | Except.error e => Except.error e
            | Except.ok _ =>
                match deserializeApiResponse decodeT value with
                | Except.ok api_response => Except.ok api_response
                | Except.error _ => Except.error (ApiError.StatusError 418)
      else Except.error (ApiError.StatusError httpStatus)

/-- Function `ping` (lib.rs:74-78): dispatch `Ping` with a `bool` result type and
map ANY success to `true`. -/
def ping (net : NetOutcome) : Except ApiError Bool :=
  (execute_command "Ping" boolResult net).map (fun _ => true)

/-! ### lib.rs: endpoint wrappers with client-side preconditions -/

/-- Enum `ConnectionType` (models.rs:138-147). -/
inductive ConnectionType where
  | Mobile : ConnectionType
  | DSL : ConnectionType
  | Hosting : ConnectionType
  | Unknown : ConnectionType
  | NotAvailable : ConnectionType
deriving Repr, DecidableEq

/-- Record `ProxyInfo` (models.rs:149-189).  The floating-point metrics `ping`
and `distance` are carried as opaque integers scaled from the wire value;
no claim depends on them. -/
structure ProxyInfo where
  proxy_id : Nat
  rent_cost : Nat
  private_rent_cost : Nat
  is_fresh : Bool
  ip : Option String
  hostname : String
  isp : String
  country_code : String
  country : String
  region : String
  city : String
  zip_code : Option String
  timezone : String
  connection_type : ConnectionType
  ping_metric : Int
  speed : Nat
  uptime_quality : Nat
  blacklist : Option (List BlacklistInfo)
  distance : Option Int
deriving Repr, DecidableEq

/-- What an endpoint wrapper does before any network traffic: either
hand a command and its query parameters to `execute_command` for
dispatch, or reject immediately with a client-side error, never touching
the network. -/
inductive CallPlan where
  | send (command : String) (params : List (String × String)) : CallPlan
  | precondition_failure (e : ApiError) : CallPlan
deriving Repr, DecidableEq

/-- Function `regular_proxy_rent` (lib.rs:139-157): dispatch `RegularProxyBuy`
when the proxy is not fresh, otherwise fail fast with HTTP 400. -/
def regular_proxy_rent (proxy_info : ProxyInfo) : CallPlan :=
  if !proxy_info.is_fresh then
    CallPlan.send "RegularProxyBuy" [("proxyid", toString proxy_info.proxy_id)]
  else
    CallPlan.precondition_failure (ApiError.StatusError 400)

/-- Function `regular_proxy_private_rent` (lib.rs:159-177): dispatch
`RegularProxyRent` when the proxy is not fresh and its private-rental
cost is positive, otherwise fail fast with HTTP 400. -/
def regular_proxy_private_rent (proxy_info : ProxyInfo) : CallPlan :=
  if !proxy_info.is_fresh && proxy_info.private_rent_cost > 0 then
    CallPlan.send "RegularProxyRent" [("proxyid", toString proxy_info.proxy_id)]
  else
    CallPlan.precondition_failure (ApiError.StatusError 400)

/-- Function `fresh_proxy_rent` (lib.rs:179-197): dispatch `FreshProxyBuy` when
the proxy is fresh, otherwise fail fast with HTTP 400. -/
def fresh_proxy_rent (proxy_info : ProxyInfo) : CallPlan :=
  if proxy_info.is_fresh then
    CallPlan.send "FreshProxyBuy" [("proxyid", toString proxy_info.proxy_id)]
  else
    CallPlan.precondition_failure (ApiError.StatusError 400)

/-- Function `fresh_proxy_private_rent` (lib.rs:199-217): dispatch
`FreshProxyRent` when the proxy is fresh and its private-rental cost is
positive, otherwise fail fast with HTTP 400. -/
def fresh_proxy_private_rent (proxy_info : ProxyInfo) : CallPlan :=
  if proxy_info.is_fresh && proxy_info.private_rent_cost > 0 then
    CallPlan.send "FreshProxyRent" [("proxyid", toString proxy_info.proxy_id)]
  else
    CallPlan.precondition_failure (ApiError.StatusError 400)

/-- Insert into a string-to-string parameter map, modelled as an
association list with replace-or-append semantics (`HashMap::insert`;
only lookup and membership matter to the claims). -/
def paramInsert (params : List (String × String)) (k v : String) :
    List (String × String) :=
  match params with
  | [] => [(k, v)]
  | (k', v') :: rest =>
      if k' = k then (k', v) :: rest else (k', v') :: paramInsert rest k v

/-- First-match lookup in a parameter map. -/
def paramLookup (params : List (String × String)) (k : String) : Option String :=
  match params with
  | [] => none
  | (k', v) :: rest => if k' = k then some v else paramLookup rest k

/-- Parameter construction of `history_entry_change_note`
(lib.rs:292-299): always `historyid`; `note` only when a note value was
passed. -/
def history_entry_change_note_params (history_id : Nat) (note : Option String) :
    List (String × String) :=
  let params := [("historyid", toString history_id)]
  match note with
  | some note_value => paramInsert params "note" note_value
  | none => params

/-- Function `history_entry_change_note` (lib.rs:287-308): dispatch
`HistoryEntryChangeNote` with an `Option<bool>` result type and discard
the payload, returning plain success. -/
def history_entry_change_note (net : NetOutcome) : Except ApiError Unit :=
  (execute_command "HistoryEntryChangeNote" optBoolResult net).map (fun _ => ())

/-! ### Concrete sample data used to instantiate the theorems -/

/-- A concrete `ProxyInfo` with a chosen freshness flag and
private-rental cost. -/
def sampleProxy (fresh : Bool) (cost : Nat) : ProxyInfo :=
  { proxy_id := 1234, rent_cost := 10, private_rent_cost := cost, is_fresh := fresh,
    ip := none, hostname := "example.host", isp := "ExampleISP", country_code := "US",
    country := "United States", region := "NY", city := "New York", zip_code := none,
    timezone := "America/New_York", connection_type := ConnectionType.Mobile,
    ping_metric := 50, speed := 1000, uptime_quality := 99, blacklist := none,
    distance := none }

/-- A concrete response body whose envelope carries the given code and
whose `result` payload is the given JSON value. -/
def sampleBody (code : Int) (payload : Json) : Json :=
  Json.obj [("status", Json.obj [("code", Json.num code), ("message", Json.str "OK")]),
            ("result", payload)]

/-! ## Theorems -/

/-- The envelope gate fails only by reporting a successfully parsed
status whose code is neither 0 nor 209. -/
theorem envelope_gate_error_spec (v : Json) (e : ApiError)
    (h : envelope_gate v = Except.error e) :
    ∃ st, e = ApiError.RequestError st ∧
      deserializeStatus (jindex v "status") = Except.ok st ∧
      st.code ≠ 0 ∧ st.code ≠ 209 := by
  unfold envelope_gate at h
  split at h
  next st hd =>
    split at h
    next hc =>
      exact ⟨st, ((Except.error.injEq _ _).mp h).symm, hd, hc.1, hc.2⟩
    next hc => exact Except.noConfusion h
  next e2 hd => exact Except.noConfusion h

/-- When the gate passes but the body fails to decode as the expected
response shape, the dispatch reports the opaque 418 error. -/
theorem execute_command_decode_failure {T : Type} (command : String)
    (decodeT : Option Json → Except String T) (hs : Nat) (body : Json) (e : String)
    (hhttp : httpSuccess hs = true) (hgate : envelope_gate body = Except.ok ())
    (hdec : deserializeApiResponse decodeT body = Except.error e) :
    execute_command command decodeT (NetOutcome.response hs (some body)) =
      Except.error (ApiError.StatusError 418) := by
  simp [execute_command, hhttp, hgate, hdec]

/-- A declared API failure can only arise from a 2xx response whose
status sub-field genuinely parsed as that envelope with a code that is
neither 0 nor 209. -/
theorem execute_command_request_error {T : Type} (command : String)
    (decodeT : Option Json → Except String T) (net : NetOutcome) (st : Status)
    (h : execute_command command decodeT net = Except.error (ApiError.RequestError st)) :
    ∃ hs body, net = NetOutcome.response hs (some body) ∧ httpSuccess hs = true ∧
      deserializeStatus (jindex body "status") = Except.ok st ∧
      st.code ≠ 0 ∧ st.code ≠ 209 := by
  cases net with
  | sendFailure => simp [execute_command] at h
  | response hs body =>
      by_cases hhttp : httpSuccess hs = true
      · cases body with
        | none => simp [execute_command, hhttp] at h
        | some value =>
            simp only [execute_command, hhttp, if_true] at h
            cases hg : envelope_gate value with
            | error e2 =>
                rw [hg] at h
                simp only [] at h
                obtain ⟨st2, he, hd, h0, h209⟩ := envelope_gate_error_spec value e2 hg
                have hst : st2 = st := by
                  rw [he] at h
                  exact (ApiError.RequestError.injEq _ _).mp ((Except.error.injEq _ _).mp h)
                subst hst
                exact ⟨hs, value, rfl, hhttp, hd, h0, h209⟩
            | ok u =>
                rw [hg] at h
                cases hd : deserializeApiResponse decodeT value with
                | ok r => rw [hd] at h; exact Except.noConfusion h
                | error e2 => rw [hd] at h; simp at h
      · simp [execute_command, hhttp] at h

/-- C3: the zip-code decoder maps the literal string "-" to absent and
any other string (the empty string included) to itself; the empty-string
decoder used for notes and blacklist links maps "" to absent and any
non-empty string (the dash included) to itself unchanged, so decoding a
non-empty encoded note round-trips to the original string. -/
theorem string_sentinel_decoders (s t : String) (hz : s ≠ "-") (hn : t ≠ "") :
    zipcode_field (Json.str "-") = Except.ok none ∧
    zipcode_field (Json.str s) = Except.ok (some s) ∧
    empty_string_as_none (Json.str "") = Except.ok none ∧
    empty_string_as_none (Json.str t) = Except.ok (some t) := by
  refine ⟨rfl, ?_, rfl, ?_⟩
  · simp [zipcode_field, deserializeString, hz]
  · simp [empty_string_as_none, deserializeString, String.isEmpty_iff, hn]

/-- Witness for C3 at the spec's own scenario string "10001" and at the
two cross-over sentinels: the empty string through the zip decoder and
the dash through the note decoder. -/
theorem string_sentinel_decoders_witness :
    zipcode_field (Json.str "10001") = Except.ok (some "10001") ∧
    empty_string_as_none (Json.str "10001") = Except.ok (some "10001") ∧
    zipcode_field (Json.str "") = Except.ok (some "") ∧
    empty_string_as_none (Json.str "-") = Except.ok (some "-") :=
  ⟨(string_sentinel_decoders "10001" "10001" (by decide) (by decide)).2.1,
   (string_sentinel_decoders "10001" "10001" (by decide) (by decide)).2.2.2,
   (string_sentinel_decoders "" "-" (by decide) (by decide)).2.1,
   (string_sentinel_decoders "" "-" (by decide) (by decide)).2.2.2⟩

/-- C4: fresh-proxy purchase against a non-fresh proxy fails fast with a
"bad request" precondition failure and never reaches the dispatch step,
and symmetrically regular-proxy purchase against a fresh proxy. -/
theorem purchase_freshness_precondition (p : ProxyInfo) :
    (p.is_fresh = false →
      fresh_proxy_rent p = CallPlan.precondition_failure (ApiError.StatusError 400)) ∧
    (p.is_fresh = true →
      regular_proxy_rent p = CallPlan.precondition_failure (ApiError.StatusError 400)) := by
  constructor <;> intro h <;> simp [fresh_proxy_rent, regular_proxy_rent, h]

/-- Witness for C4 at concrete proxies of each freshness. -/
theorem purchase_freshness_precondition_witness :
    fresh_proxy_rent (sampleProxy false 10) =
      CallPlan.precondition_failure (ApiError.StatusError 400) ∧
    regular_proxy_rent (sampleProxy true 10) =
      CallPlan.precondition_failure (ApiError.StatusError 400) :=
  ⟨(purchase_freshness_precondition (sampleProxy false 10)).1 rfl,
   (purchase_freshness_precondition (sampleProxy true 10)).2 rfl⟩

/-- C5: both private-rental operations fail fast with a "bad request"
precondition failure whenever the proxy's private-rental cost is 0,
whatever its freshness flag. -/
theorem private_rent_zero_cost_precondition (p : ProxyInfo)
    (h : p.private_rent_cost = 0) :
    regular_proxy_private_rent p = CallPlan.precondition_failure (ApiError.StatusError 400) ∧
    fresh_proxy_private_rent p = CallPlan.precondition_failure (ApiError.StatusError 400) := by
  constructor <;> simp [regular_proxy_private_rent, fresh_proxy_private_rent, h]

/-- Witness for C5 at concrete zero-cost proxies of both freshness
values. -/
theorem private_rent_zero_cost_precondition_witness :
    regular_proxy_private_rent (sampleProxy true 0) =
      CallPlan.precondition_failure (ApiError.StatusError 400) ∧
    fresh_proxy_private_rent (sampleProxy false 0) =
      CallPlan.precondition_failure (ApiError.StatusError 400) :=
  ⟨(private_rent_zero_cost_precondition (sampleProxy true 0) rfl).1,
   (private_rent_zero_cost_precondition (sampleProxy false 0) rfl).2⟩

/-- C10: `ping` returns `Ok(true)` whenever the underlying dispatch
succeeds — whatever boolean the response's result payload carried — and
no input makes it return `Ok(false)`. -/
theorem ping_success_always_true (net : NetOutcome) :
    (∀ r, execute_command "Ping" boolResult net = Except.ok r →
      ping net = Except.ok true) ∧
    ping net ≠ Except.ok false := by
  constructor
  · intro r h
    simp [ping, h, Except.map]
  · intro hcontra
    unfold ping at hcontra
    cases hx : execute_command "Ping" boolResult net with
    | ok r => rw [hx] at hcontra; simp [Except.map] at hcontra
    | error e => rw [hx] at hcontra; simp [Except.map] at hcontra

/-- Witness for C10: a dispatch whose result payload is the boolean
`false` still makes `ping` answer `Ok(true)`. -/
theorem ping_success_always_true_witness :
    ping (NetOutcome.response 200 (some (sampleBody 0 (Json.bool false)))) =
      Except.ok true :=
  (ping_success_always_true
    (NetOutcome.response 200 (some (sampleBody 0 (Json.bool false))))).1
    ⟨⟨0, "OK"⟩, false⟩ rfl

/-- C2 counterexample: the claim says boolean `true` must be a decode
failure for every boolean-false-sentinel decoder, but the untagged-enum
decoders accept ANY boolean as the absent sentinel. -/
theorem bool_true_sentinel_accepted :
    blacklist_field (Json.bool true) = Except.ok none ∧
    connect_info_field (Json.bool true) = Except.ok none :=
  ⟨rfl, rfl⟩

/-- C2 (amended): full success characterization of the three
boolean-sentinel decoders — the IP decoder yields absent exactly on
boolean `false` and present exactly on a string; the blacklist and
connection-credential decoders yield absent exactly on ANY boolean and
present exactly on a payload their element decoders accept; every other
shape is a decode failure (the only remaining alternative). -/
theorem sentinel_decoders_characterization (v : Json) :
    (ip_field v = Except.ok none ↔ v = Json.bool false) ∧
    (∀ s, ip_field v = Except.ok (some s) ↔ v = Json.str s) ∧
    (blacklist_field v = Except.ok none ↔ ∃ b, v = Json.bool b) ∧
    (∀ bl, blacklist_field v = Except.ok (some bl) ↔
      deserializeList deserializeBlacklistInfo v = Except.ok bl) ∧
    (connect_info_field v = Except.ok none ↔ ∃ b, v = Json.bool b) ∧
    (∀ ci, connect_info_field v = Except.ok (some ci) ↔
      deserializeConnectInfo v = Except.ok ci) := by
  refine ⟨?_, ?_, ?_, ?_, ?_, ?_⟩
  · cases v with
    | bool b => cases b <;> simp [ip_field]
    | null => simp [ip_field]
    | num n => simp [ip_field]
    | str s => simp [ip_field]
    | arr xs => simp [ip_field]
    | obj m => simp [ip_field]
  · intro s
    cases v with
    | bool b => cases b <;> simp [ip_field]
    | null => simp [ip_field]
    | num n => simp [ip_field]
    | str s2 => simp [ip_field]
    | arr xs => simp [ip_field]
    | obj m => simp [ip_field]
  · cases v with
    | bool b => simp [blacklist_field, deserializeBool]
    | null => simp [blacklist_field, deserializeBool, deserializeList]
    | num n => simp [blacklist_field, deserializeBool, deserializeList]
    | str s => simp [blacklist_field, deserializeBool, deserializeList]
    | obj m => simp [blacklist_field, deserializeBool, deserializeList]
    | arr xs =>
        cases hd : deserializeList deserializeBlacklistInfo (Json.arr xs) with
        | ok ys => simp [blacklist_field, deserializeBool, hd]
        | error e => simp [blacklist_field, deserializeBool, hd]
  · intro bl
    cases v with
    | bool b => simp [blacklist_field, deserializeBool, deserializeList]
    | null => simp [blacklist_field, deserializeBool, deserializeList]
    | num n => simp [blacklist_field, deserializeBool, deserializeList]
    | str s => simp [blacklist_field, deserializeBool, deserializeList]
    | obj m => simp [blacklist_field, deserializeBool, deserializeList]
    | arr xs =>
        cases hd : deserializeList deserializeBlacklistInfo (Json.arr xs) with
        | ok ys => simp [blacklist_field, deserializeBool, hd]
        | error e => simp [blacklist_field, deserializeBool, hd]
  · cases v with
    | bool b => simp [connect_info_field, deserializeBool]
    | null => simp [connect_info_field, deserializeBool, deserializeConnectInfo]
    | num n => simp [connect_info_field, deserializeBool, deserializeConnectInfo]
    | str s => simp [connect_info_field, deserializeBool, deserializeConnectInfo]
    | arr xs => simp [connect_info_field, deserializeBool, deserializeConnectInfo]
    | obj m =>
        cases hd : deserializeConnectInfo (Json.obj m) with
        | ok ci => simp [connect_info_field, deserializeBool, hd]
        | error e => simp [connect_info_field, deserializeBool, hd]
  · intro ci
    cases v with
    | bool b => simp [connect_info_field, deserializeBool, deserializeConnectInfo]
    | null => simp [connect_info_field, deserializeBool, deserializeConnectInfo]
    | num n => simp [connect_info_field, deserializeBool, deserializeConnectInfo]
    | str s => simp [connect_info_field, deserializeBool, deserializeConnectInfo]
    | arr xs => simp [connect_info_field, deserializeBool, deserializeConnectInfo]
    | obj m =>
        cases hd : deserializeConnectInfo (Json.obj m) with
        | ok ci2 => simp [connect_info_field, deserializeBool, hd]
        | error e => simp [connect_info_field, deserializeBool, hd]

/-- Witness for C2 at the spec's own scenario inputs. -/
theorem sentinel_decoders_characterization_witness :
    ip_field (Json.bool false) = Except.ok none ∧
    ip_field (Json.str "203.0.113.5") = Except.ok (some "203.0.113.5") ∧
    blacklist_field (Json.bool false) = Except.ok none ∧
    connect_info_field (Json.bool false) = Except.ok none :=
  ⟨(sentinel_decoders_characterization (Json.bool false)).1.mpr rfl,
   ((sentinel_decoders_characterization (Json.str "203.0.113.5")).2.1
     "203.0.113.5").mpr rfl,
   (sentinel_decoders_characterization (Json.bool false)).2.2.1.mpr ⟨false, rfl⟩,
   (sentinel_decoders_characterization (Json.bool false)).2.2.2.2.1.mpr ⟨false, rfl⟩⟩

/-- C6 counterexample: the claim says any dispatch without a declared
status error returns plain success whatever the result payload looks
like, but a string payload fails the `Option<bool>` decode and surfaces
as a 418 decode failure. -/
theorem change_note_loose_result_counterexample :
    history_entry_change_note (NetOutcome.response 200
      (some (sampleBody 0 (Json.str "weird")))) =
      Except.error (ApiError.StatusError 418) := rfl

/-- C6 (amended): an absent note omits the "note" query parameter, a
present note (empty or not) sends exactly its value, and the operation
returns plain success on every dispatch that succeeds, discarding the
decoded result; on a 2xx response whose envelope parsed with a
non-failing code, a result payload that is missing, null, or a boolean
(either one) yields plain success, while a payload of any other shape
yields the 418 decode failure rather than success. -/
theorem change_note_params_and_success (history_id : Nat) (note : Option String)
    (v : String) :
    (note = none →
      paramLookup (history_entry_change_note_params history_id note) "note" = none) ∧
    (note = some v →
      paramLookup (history_entry_change_note_params history_id note) "note" = some v) ∧
    (∀ net r, execute_command "HistoryEntryChangeNote" optBoolResult net = Except.ok r →
      history_entry_change_note net = Except.ok ()) ∧
    (∀ hs entries st, httpSuccess hs = true →
      requiredField entries "status" deserializeStatus = Except.ok st →
      st.code = 0 ∨ st.code = 209 →
      ((jlookup entries "result" = none ∨ jlookup entries "result" = some Json.null ∨
        (∃ b, jlookup entries "result" = some (Json.bool b))) →
        history_entry_change_note (NetOutcome.response hs (some (Json.obj entries))) =
          Except.ok ()) ∧
      (∀ p, jlookup entries "result" = some p → p ≠ Json.null →
        (∀ b, p ≠ Json.bool b) →
        history_entry_change_note (NetOutcome.response hs (some (Json.obj entries))) =
          Except.error (ApiError.StatusError 418))) := by
  refine ⟨?_, ?_, ?_, ?_⟩
  · intro h
    subst h
    simp [history_entry_change_note_params, paramLookup]
  · intro h
    subst h
    simp [history_entry_change_note_params, paramInsert, paramLookup]
  · intro net r h
    simp [history_entry_change_note, h, Except.map]
  · intro hs entries st hhttp hstf hcode
    have hsv : ∃ sv, jlookup entries "status" = some sv ∧
        deserializeStatus sv = Except.ok st := by
      unfold requiredField at hstf
      split at hstf
      next sv hl => exact ⟨sv, hl, hstf⟩
      next hl => exact Except.noConfusion hstf
    obtain ⟨sv, hl, hdv⟩ := hsv
    have hjindex : jindex (Json.obj entries) "status" = sv := by
      simp [jindex, hl]
    have hgate : envelope_gate (Json.obj entries) = Except.ok () := by
      unfold envelope_gate
      rw [hjindex, hdv]
      rcases hcode with h | h <;> simp [h]
    have hreq : requiredField entries "status" deserializeStatus = Except.ok st := by
      simp [requiredField, hl, hdv]
    constructor
    · intro hok
      have hres : optBoolResult (jlookup entries "result") = Except.ok none ∨
          ∃ b, optBoolResult (jlookup entries "result") = Except.ok (some b) := by
        rcases hok with h | h | ⟨b, h⟩
        · exact Or.inl (by simp [optBoolResult, h])
        · exact Or.inl (by simp [optBoolResult, h])
        · exact Or.inr ⟨b, by simp [optBoolResult, h]⟩
      have hdec : ∃ r, deserializeApiResponse optBoolResult (Json.obj entries) =
          Except.ok r := by
        rcases hres with h | ⟨b, h⟩
        · exact ⟨⟨st, none⟩, by simp [deserializeApiResponse, hreq, h]⟩
        · exact ⟨⟨st, some b⟩, by simp [deserializeApiResponse, hreq, h]⟩
      obtain ⟨r, hdec⟩ := hdec
      have hexec : execute_command "HistoryEntryChangeNote" optBoolResult
          (NetOutcome.response hs (some (Json.obj entries))) = Except.ok r := by
        simp [execute_command, hhttp, hgate, hdec]
      simp [history_entry_change_note, hexec, Except.map]
    · intro p hp hnull hbool
      have hres : optBoolResult (jlookup entries "result") =
          Except.error "invalid type: expected a boolean or null" := by
        rw [hp]
        cases p with
        | null => exact absurd rfl hnull
        | bool b => exact absurd rfl (hbool b)
        | num n => rfl
        | str s2 => rfl
        | arr xs => rfl
        | obj m => rfl
      have hdec : deserializeApiResponse optBoolResult (Json.obj entries) =
          Except.error "invalid type: expected a boolean or null" := by
        simp [deserializeApiResponse, hreq, hres]
      have hexec := execute_command_decode_failure "HistoryEntryChangeNote" optBoolResult
        hs (Json.obj entries) "invalid type: expected a boolean or null" hhttp hgate hdec
      simp [history_entry_change_note, hexec, Except.map]

/-- Witness for C6: a concrete note set, a concrete omission, and
concrete code-0 dispatches with a missing payload, a null payload, a
boolean payload, and a numeric payload. -/
theorem change_note_params_and_success_witness :
    paramLookup (history_entry_change_note_params 7 (some "hello")) "note" =
      some "hello" ∧
    paramLookup (history_entry_change_note_params 7 none) "note" = none ∧
    history_entry_change_note (NetOutcome.response 200 (some (Json.obj
      [("status", Json.obj [("code", Json.num 0), ("message", Json.str "OK")])]))) =
      Except.ok () ∧
    history_entry_change_note (NetOutcome.response 200 (some (sampleBody 0 Json.null))) =
      Except.ok () ∧
    history_entry_change_note (NetOutcome.response 200
      (some (sampleBody 0 (Json.bool false)))) = Except.ok () ∧
    history_entry_change_note (NetOutcome.response 200 (some (sampleBody 0 (Json.num 3)))) =
      Except.error (ApiError.StatusError 418) :=
  ⟨(change_note_params_and_success 7 (some "hello") "hello").2.1 rfl,
   (change_note_params_and_success 7 none "hello").1 rfl,
   ((change_note_params_and_success 7 none "hello").2.2.2 200
     [("status", Json.obj [("code", Json.num 0), ("message", Json.str "OK")])]
     ⟨0, "OK"⟩ rfl rfl (Or.inl rfl)).1 (Or.inl rfl),
   ((change_note_params_and_success 7 none "hello").2.2.2 200
     [("status", Json.obj [("code", Json.num 0), ("message", Json.str "OK")]),
      ("result", Json.null)] ⟨0, "OK"⟩ rfl rfl (Or.inl rfl)).1 (Or.inr (Or.inl rfl)),
   ((change_note_params_and_success 7 none "hello").2.2.2 200
     [("status", Json.obj [("code", Json.num 0), ("message", Json.str "OK")]),
      ("result", Json.bool false)] ⟨0, "OK"⟩ rfl rfl (Or.inl rfl)).1
     (Or.inr (Or.inr ⟨false, rfl⟩)),
   ((change_note_params_and_success 7 none "hello").2.2.2 200
     [("status", Json.obj [("code", Json.num 0), ("message", Json.str "OK")]),
      ("result", Json.num 3)] ⟨0, "OK"⟩ rfl rfl (Or.inl rfl)).2 (Json.num 3) rfl
     (fun h => Json.noConfusion h) (fun b h => Json.noConfusion h)⟩

/-- Inserting into an object entry list rewrites exactly the inserted
key and leaves every other lookup unchanged. -/
theorem jlookup_objInsert (m : List (String × Json)) (k q : String) (v : Json) :
    jlookup (objInsert m k v) q = if k = q then some v else jlookup m q := by
  induction m with
  | nil => simp [objInsert, jlookup]
  | cons kv rest ih =>
      obtain ⟨a, b⟩ := kv
      by_cases hak : a = k
      · subst hak
        by_cases haq : a = q
        · subst haq
          simp [objInsert, jlookup]
        · simp [objInsert, jlookup, haq]
      · by_cases haq : a = q
        · subst haq
          have hkq : k ≠ a := fun hh => hak hh.symm
          simp [objInsert, jlookup, hak, hkq]
        · simp [objInsert, jlookup, hak, haq, ih]

/-- A key absent from an entry list looks up to nothing. -/
theorem jlookup_eq_none (m : List (String × Json)) (q : String)
    (h : q ∉ m.map Prod.fst) : jlookup m q = none := by
  induction m with
  | nil => rfl
  | cons kv rest ih =>
      obtain ⟨a, b⟩ := kv
      simp only [List.map_cons, List.mem_cons, not_or] at h
      have haq : ¬ a = q := fun hh => h.1 hh.symm
      simp [jlookup, haq, ih h.2]

/-- Folding `objInsert` over a duplicate-free entry list makes the
folded entries win every lookup they cover and leaves the rest to the
accumulator. -/
theorem jlookup_foldl_objInsert (m2 acc : List (String × Json))
    (h : (m2.map Prod.fst).Nodup) (q : String) :
    jlookup (m2.foldl (fun a kv => objInsert a kv.1 kv.2) acc) q =
      match jlookup m2 q with
      | some v => some v
      | none => jlookup acc q := by
  induction m2 generalizing acc with
  | nil => simp [jlookup]
  | cons kv rest ih =>
      obtain ⟨a, b⟩ := kv
      simp only [List.map_cons, List.nodup_cons] at h
      rw [List.foldl_cons, ih _ h.2]
      by_cases haq : a = q
      · subst haq
        have hnone : jlookup rest a = none := jlookup_eq_none rest a h.1
        simp [jlookup, hnone, jlookup_objInsert]
      · simp [jlookup, haq, jlookup_objInsert]

/-- C7: merging the base `key`/`cmd` object with any additional object
produces an object holding every key of both in which the additional
object's value wins every collision — a plain overwrite-by-key,
including collisions with "key" or "cmd" themselves. -/
theorem merge_overwrites_by_key (entries1 entries2 : List (String × Json))
    (h : (entries2.map Prod.fst).Nodup) :
    ∃ merged, merge_values (Json.obj entries1) (Json.obj entries2) =
        some (Json.obj merged) ∧
      ∀ q, jlookup merged q = match jlookup entries2 q with
        | some v => some v
        | none => jlookup entries1 q := by
  refine ⟨entries2.foldl (fun a kv => objInsert a kv.1 kv.2) entries1, ?_, ?_⟩
  · rfl
  · exact fun q => jlookup_foldl_objInsert entries2 entries1 h q

/-- Witness for C7: the additional parameters override the base "key"
entry, keep "cmd", and contribute their own keys. -/
theorem merge_overwrites_by_key_witness :
    ∃ merged, merge_values (baseParams "Ping" "SECRET")
        (Json.obj [("key", Json.str "OVERRIDE"), ("proxyid", Json.str "7")]) =
        some (Json.obj merged) ∧
      jlookup merged "key" = some (Json.str "OVERRIDE") ∧
      jlookup merged "cmd" = some (Json.str "Ping") ∧
      jlookup merged "proxyid" = some (Json.str "7") := by
  obtain ⟨m, hm, hq⟩ := merge_overwrites_by_key
    [("cmd", Json.str "Ping"), ("key", Json.str "SECRET")]
    [("key", Json.str "OVERRIDE"), ("proxyid", Json.str "7")] (by simp)
  refine ⟨m, hm, ?_, ?_, ?_⟩
  · simpa [jlookup] using hq "key"
  · simpa [jlookup] using hq "cmd"
  · simpa [jlookup] using hq "proxyid"

/-- C9: transport failures, body-parse failures and result-decode
failures all surface as `StatusError 418`, the same value a genuine
HTTP 418 response produces, so the four causes are indistinguishable at
the caller's interface. -/
theorem opaque_failures_all_418 (T : Type) (command : String)
    (decodeT : Option Json → Except String T) :
    execute_command command decodeT NetOutcome.sendFailure =
      Except.error (ApiError.StatusError 418) ∧
    (∀ hs, httpSuccess hs = true →
      execute_command command decodeT (NetOutcome.response hs none) =
        Except.error (ApiError.StatusError 418)) ∧
    (∀ hs body e, httpSuccess hs = true → envelope_gate body = Except.ok () →
      deserializeApiResponse decodeT body = Except.error e →
      execute_command command decodeT (NetOutcome.response hs (some body)) =
        Except.error (ApiError.StatusError 418)) ∧
    (∀ body, execute_command command decodeT (NetOutcome.response 418 body) =
      Except.error (ApiError.StatusError 418)) := by
  refine ⟨rfl, ?_, ?_, ?_⟩
  · intro hs hhttp
    simp [execute_command, hhttp]
  · intro hs body e h1 h2 h3
    exact execute_command_decode_failure command decodeT hs body e h1 h2 h3
  · intro body
    simp [execute_command, httpSuccess]

/-- Witness for C9: a vanished body and a result payload of the wrong
shape each yield exactly `StatusError 418`, as does an HTTP 418. -/
theorem opaque_failures_all_418_witness :
    execute_command "Ping" boolResult (NetOutcome.response 200 none) =
      Except.error (ApiError.StatusError 418) ∧
    execute_command "Ping" boolResult
      (NetOutcome.response 200 (some (sampleBody 0 (Json.str "oops")))) =
      Except.error (ApiError.StatusError 418) ∧
    execute_command "Ping" boolResult (NetOutcome.response 418 none) =
      Except.error (ApiError.StatusError 418) :=
  ⟨(opaque_failures_all_418 Bool "Ping" boolResult).2.1 200 rfl,
   (opaque_failures_all_418 Bool "Ping" boolResult).2.2.1 200
     (sampleBody 0 (Json.str "oops")) "invalid type: expected a boolean" rfl rfl rfl,
   (opaque_failures_all_418 Bool "Ping" boolResult).2.2.2 none⟩

/-- C1 counterexample: a non-ListOnline command (`Ping`) dispatched
against an envelope with code 209 still succeeds — the claim says every
command other than ListOnline must fail on 209. -/
theorem status_code_209_ping_counterexample :
    execute_command "Ping" boolResult
      (NetOutcome.response 200 (some (sampleBody 209 (Json.bool true)))) =
      Except.ok ⟨⟨209, "OK"⟩, true⟩ := rfl

/-- C1 (amended): for every command alike, a parsed envelope whose code
is neither 0 nor 209 yields a declared API failure carrying exactly that
envelope, while codes 0 and 209 never yield a declared API failure — the
209 exemption is uniform across commands, not special to ListOnline. -/
theorem status_code_mapping (T : Type) (command : String)
    (decodeT : Option Json → Except String T) (hs : Nat) (body : Json) (st : Status)
    (hhttp : httpSuccess hs = true)
    (hst : deserializeStatus (jindex body "status") = Except.ok st) :
    (st.code ≠ 0 → st.code ≠ 209 →
      execute_command command decodeT (NetOutcome.response hs (some body)) =
        Except.error (ApiError.RequestError st)) ∧
    (st.code = 0 ∨ st.code = 209 → ∀ s,
      execute_command command decodeT (NetOutcome.response hs (some body)) ≠
        Except.error (ApiError.RequestError s)) := by
  constructor
  · intro h0 h209
    have hg : envelope_gate body = Except.error (ApiError.RequestError st) := by
      simp [envelope_gate, hst, h0, h209]
    simp [execute_command, hhttp, hg]
  · intro hcode s hcontra
    obtain ⟨hs2, body2, heq, hh2, hst2, hc0, hc209⟩ :=
      execute_command_request_error command decodeT _ s hcontra
    injection heq with h1 h2
    subst h1
    injection h2 with h3
    subst h3
    rw [hst] at hst2
    injection hst2 with h4
    subst h4
    rcases hcode with h | h
    · exact hc0 h
    · exact hc209 h

/-- Witness for C1: a code-300 envelope on `AccountStatus` maps to the
declared API failure carrying code 300 and its message. -/
theorem status_code_mapping_witness :
    execute_command "AccountStatus" boolResult
      (NetOutcome.response 200 (some (sampleBody 300 (Json.bool true)))) =
      Except.error (ApiError.RequestError ⟨300, "OK"⟩) :=
  (status_code_mapping Bool "AccountStatus" boolResult 200
    (sampleBody 300 (Json.bool true)) ⟨300, "OK"⟩ rfl rfl).1
    (by simp) (by simp)

/-- C8: a shape mismatch can never surface as a declared API failure —
every declared API failure comes from a genuinely parsed envelope, every
decode failure surfaces as the distinct `StatusError` kind. -/
theorem shape_mismatch_never_declared_failure (T : Type) (command : String)
    (decodeT : Option Json → Except String T) :
    (∀ net st, execute_command command decodeT net =
        Except.error (ApiError.RequestError st) →
      ∃ hs body, net = NetOutcome.response hs (some body) ∧ httpSuccess hs = true ∧
        deserializeStatus (jindex body "status") = Except.ok st ∧
        st.code ≠ 0 ∧ st.code ≠ 209) ∧
    (∀ hs body e, httpSuccess hs = true → envelope_gate body = Except.ok () →
      deserializeApiResponse decodeT body = Except.error e →
      execute_command command decodeT (NetOutcome.response hs (some body)) =
        Except.error (ApiError.StatusError 418)) ∧
    (∀ n s, ApiError.StatusError n ≠ ApiError.RequestError s) :=
  ⟨fun net st h => execute_command_request_error command decodeT net st h,
   fun hs body e h1 h2 h3 =>
     execute_command_decode_failure command decodeT hs body e h1 h2 h3,
   fun n s h => ApiError.noConfusion h⟩

/-- Witness for C8: a numeric result payload where a boolean was
expected surfaces as the opaque 418 decode failure, not as a declared
API failure. -/
theorem shape_mismatch_never_declared_failure_witness :
    execute_command "Ping" boolResult
      (NetOutcome.response 200 (some (sampleBody 0 (Json.num 7)))) =
      Except.error (ApiError.StatusError 418) :=
  (shape_mismatch_never_declared_failure Bool "Ping" boolResult).2.1 200
    (sampleBody 0 (Json.num 7)) "invalid type: expected a boolean" rfl rfl rfl

end TrueSocks
